import Mathlib

/-!
Shallow embedding of the session / credential lifecycle core of the
yp-book-shop-backend repository, centred on `src/auth/service.ts` and the
`forgotPassword` handler of `src/auth/controller.ts`.

The embedding models:
* the Redis key-value collaborator with per-key TTL (`session:<token>`,
  `token:blacklist:<token>`, `reset:otp:<email>` namespaces);
* the relational user table as a list of rows;
* the process clock: every `Date.now()` call in the service code consumes
  one element of a tick list, so successive readings are monotone but need
  not coincide;
* infrastructure failures of the two collaborators via reachability flags;
* the hono/jwt sign/verify collaborator and the bcrypt hashing capability
  (both external to the repository, modelled from the spec).

Each service function is a plain state-passing function
`State → Except Err α × State`; a thrown JS exception is `Except.error`,
and partial writes performed before a throw persist in the returned state,
as they do against a real store.
-/

namespace AuthCore

/-- A row of the `users` table (`src/models/user.ts`): `id`, `name`,
`username`, `email`, `password_hash`, `created_at`. -/
structure User where
  id : Int
  name : String
  username : String
  email : String
  password_hash : String
  created_at : Int
deriving DecidableEq, Repr

/-- The public projection selected by `getUserFromToken`
(`id, name, username, email, created_at` — never the digest). -/
structure PublicUser where
  id : Int
  name : String
  username : String
  email : String
  created_at : Int
deriving DecidableEq, Repr

def User.toPublic (u : User) : PublicUser :=
  ⟨u.id, u.name, u.username, u.email, u.created_at⟩

/-- JWT payload built by `loginUser`: `{ userId, iat, exp }`,
timestamps in integer unix seconds. -/
structure TokenPayload where
  userId : Int
  iat : Int
  exp : Int
deriving DecidableEq, Repr

/-- Modelled from the spec: a token is the signed encoding of a payload
(an opaque string artifact).  A well-formed token carries its payload and
the signature (identified with the secret that produced it); any other
string is `malformed`. -/
inductive Token
  | signed (payload : TokenPayload) (sig : String)
  | malformed (raw : String)
deriving DecidableEq, Repr

/-- The three disjoint Redis key namespaces used by the service:
`session:<token>`, `token:blacklist:<token>`, `reset:otp:<email>`. -/
inductive Key
  | session (t : Token)
  | blacklist (t : Token)
  | otp (email : String)
deriving DecidableEq, Repr

/-- A stored Redis value together with its absolute expiry instant
(`SET key v EX ttl` at time `now` stores expiry `now + ttl`). -/
structure KVEntry where
  value : String
  expiresAt : Int
deriving DecidableEq, Repr

/-- Whole-system state: the Redis contents, the user table, reachability
flags for the two collaborators, the current clock (unix seconds) and the
pending clock ticks consumed by successive `Date.now()` readings. -/
structure State where
  kv : List (Key × KVEntry)
  dbUsers : List User
  kvUp : Bool
  dbUp : Bool
  clock : Int
  ticks : List Nat
deriving DecidableEq, Repr

/-- Errors: a JS `Error(msg)` thrown by the service code, a hono/jwt
verification failure, or an infrastructure failure of a collaborator. -/
inductive Err
  | msg (m : String)
  | jwt
  | infra
deriving DecidableEq, Repr

deriving instance DecidableEq for Except

/-- JS truthiness of a `redis.get` result (`null` and `""` are falsy). -/
def jsTruthy : Option String → Bool
  | none => false
  | some v => !(v == "")

def kvFind (kv : List (Key × KVEntry)) (k : Key) : Option KVEntry :=
  (kv.find? (fun q => q.1 == k)).map (fun q => q.2)

/-- The value `redis.get` returns at time `now`: present iff a record for
the key exists and has not yet reached its expiry instant. -/
def redisLookup (kv : List (Key × KVEntry)) (now : Int) (k : Key) : Option String :=
  match kvFind kv k with
  | some e => if now < e.expiresAt then some e.value else none
  | none => none

def kvSet (kv : List (Key × KVEntry)) (k : Key) (e : KVEntry) : List (Key × KVEntry) :=
  (k, e) :: kv.filter (fun q => !(q.1 == k))

def kvDel (kv : List (Key × KVEntry)) (k : Key) : List (Key × KVEntry) :=
  kv.filter (fun q => !(q.1 == k))

/-- `redis.get`; raises an infrastructure error when the store is down. -/
def redisGet (s : State) (k : Key) : Except Err (Option String) :=
  if s.kvUp then Except.ok (redisLookup s.kv s.clock k) else Except.error Err.infra

/-- `redis.set key v EX ttl`. -/
def redisSetEx (s : State) (k : Key) (v : String) (ttl : Int) : Except Err State :=
  if s.kvUp then Except.ok { s with kv := kvSet s.kv k ⟨v, s.clock + ttl⟩ }
  else Except.error Err.infra

/-- `redis.del key`. -/
def redisDel (s : State) (k : Key) : Except Err State :=
  if s.kvUp then Except.ok { s with kv := kvDel s.kv k } else Except.error Err.infra

/-- `db.select().from(users).where(pred).limit(1)`. -/
def dbSelectWhere (s : State) (p : User → Bool) : Except Err (List User) :=
  if s.dbUp then Except.ok ((s.dbUsers.filter p).take 1) else Except.error Err.infra

/-- `db.update(users).set(\x7b password_hash \x7d).where(eq(users.id, uid))`. -/
def dbUpdatePasswordHash (s : State) (uid : Int) (h : String) : Except Err State :=
  if s.dbUp then
    Except.ok
      { s with dbUsers :=
          s.dbUsers.map (fun u => if u.id == uid then { u with password_hash := h } else u) }
  else Except.error Err.infra

/-- One `Math.floor(Date.now() / 1000)` reading: time advances by the next
pending tick and the new clock value is returned. -/
def readClock (s : State) : Int × State :=
  match s.ticks with
  | [] => (s.clock, s)
  | d :: rest => (s.clock + (d : Int), { s with clock := s.clock + (d : Int), ticks := rest })

/-- Wall-clock time passing between two service calls. -/
def elapse (d : Nat) (s : State) : State := { s with clock := s.clock + (d : Int) }

/-- Modelled from the spec: the injected bcrypt `hash(secret) -> digest`
capability (the primitive itself is outside the repository). -/
def bcryptHash (password : String) : String := "$2b$10$" ++ password

/-- Modelled from the spec: the injected `verify(secret, digest) -> bool`
capability. -/
def bcryptCompare (password digest : String) : Bool := digest == bcryptHash password

/-- The process-wide signing secret `env.JWT_SECRET`. -/
def envJWTSecret : String := "JWT_SECRET"

/-- Modelled from the spec: `hono/jwt` `sign(payload, secret)`. -/
def jwtSign (p : TokenPayload) (secret : String) : Token := Token.signed p secret

/-- Modelled from the spec: `hono/jwt` `verify(token, secret)` — checks
signature integrity and that `now < expiresAt`; throws on signature
mismatch, malformed input, or expiry. -/
def jwtVerify (t : Token) (secret : String) (now : Int) : Except Err TokenPayload :=
  match t with
  | Token.malformed _ => Except.error Err.jwt
  | Token.signed p sig =>
    if sig == secret then
      if now < p.exp then Except.ok p else Except.error Err.jwt
    else Except.error Err.jwt

def JWT_EXPIRES_IN : Int := 3600

def OTP_EXPIRY : Int := 600

/-- `loginUser(identifier, password)` from `src/auth/service.ts`:
lookup by email, then by username; compare the secret; build the payload
with two successive clock readings; sign; store the session record. -/
def loginUser (identifier password : String) (s : State) : Except Err Token × State :=
  match dbSelectWhere s (fun u => u.email == identifier) with
  | Except.error e => (Except.error e, s)
  | Except.ok firstTry =>
    match (if firstTry.isEmpty
           then dbSelectWhere s (fun u => u.username == identifier)
           else Except.ok firstTry) with
    | Except.error e => (Except.error e, s)
    | Except.ok userRows =>
      match userRows with
      | [] => (Except.error (Err.msg "Invalid credentials"), s)
      | u :: _ =>
        if bcryptCompare password u.password_hash then
          let r1 := readClock s
          let r2 := readClock r1.2
          let payload : TokenPayload := ⟨u.id, r1.1, r2.1 + JWT_EXPIRES_IN⟩
          let token := jwtSign payload envJWTSecret
          match redisSetEx r2.2 (Key.session token) (toString u.id) JWT_EXPIRES_IN with
          | Except.error e => (Except.error e, r2.2)
          | Except.ok s3 => (Except.ok token, s3)
        else (Except.error (Err.msg "Invalid credentials"), s)

/-- `logoutUser(token)` from `src/auth/service.ts`.  The whole body sits in
`try { ... } catch { return false }`, so collaborator failures and JWT
verification failures alike produce `false`. -/
def logoutUser (token : Token) (s : State) : Except Err Bool × State :=
  match redisGet s (Key.blacklist token) with
  | Except.error _ => (Except.ok false, s)
  | Except.ok blacklisted =>
    if jsTruthy blacklisted then (Except.ok false, s)
    else
      match jwtVerify token envJWTSecret s.clock with
      | Except.error _ => (Except.ok false, s)
      | Except.ok decoded =>
        let r := readClock s
        let expiry := decoded.exp - r.1
        if expiry > 0 then
          match redisSetEx r.2 (Key.blacklist token) "1" expiry with
          | Except.error _ => (Except.ok false, r.2)
          | Except.ok s2 =>
            match redisDel s2 (Key.session token) with
            | Except.error _ => (Except.ok false, s2)
            | Except.ok s3 => (Except.ok true, s3)
        else
          match redisDel r.2 (Key.session token) with
          | Except.error _ => (Except.ok false, r.2)
          | Except.ok s2 => (Except.ok true, s2)

/-- `findUserByEmail(email)` from `src/auth/service.ts`. -/
def findUserByEmail (email : String) (s : State) : Except Err (Option User) × State :=
  match dbSelectWhere s (fun u => u.email == email) with
  | Except.error e => (Except.error e, s)
  | Except.ok rows => (Except.ok rows.head?, s)

/-- `generatePasswordResetOTP(email)` from `src/auth/service.ts`: requires
an existing user, then stores the constant code `"123456"` with a 600 s
TTL and returns it. -/
def generatePasswordResetOTP (email : String) (s : State) : Except Err String × State :=
  match findUserByEmail email s with
  | (Except.error e, s1) => (Except.error e, s1)
  | (Except.ok none, s1) => (Except.error (Err.msg "User not found"), s1)
  | (Except.ok (some _), s1) =>
    let otpCode := "123456"
    match redisSetEx s1 (Key.otp email) otpCode OTP_EXPIRY with
    | Except.error e => (Except.error e, s1)
    | Except.ok s2 => (Except.ok otpCode, s2)

/-- `verifyOTPAndResetPassword(email, otp, newPassword)` from
`src/auth/service.ts`. -/
def verifyOTPAndResetPassword (email otpArg newPassword : String) (s : State) :
    Except Err Bool × State :=
  match findUserByEmail email s with
  | (Except.error e, s1) => (Except.error e, s1)
  | (Except.ok none, s1) => (Except.error (Err.msg "User not found"), s1)
  | (Except.ok (some user), s1) =>
    match redisGet s1 (Key.otp email) with
    | Except.error e => (Except.error e, s1)
    | Except.ok storedOTP =>
      if !(jsTruthy storedOTP) then (Except.error (Err.msg "Invalid or expired OTP"), s1)
      else if !(otpArg == storedOTP.getD "") then
        (Except.error (Err.msg "Invalid or expired OTP"), s1)
      else
        match dbUpdatePasswordHash s1 user.id (bcryptHash newPassword) with
        | Except.error e => (Except.error e, s1)
        | Except.ok s2 =>
          match redisDel s2 (Key.otp email) with
          | Except.error e => (Except.error e, s2)
          | Except.ok s3 => (Except.ok true, s3)

/-- `getUserFromToken(token)` from `src/auth/service.ts` — the session
resolution used on every protected call.  The whole body sits in
`try { ... } catch { return null }`. -/
def getUserFromToken (token : Token) (s : State) : Except Err (Option PublicUser) × State :=
  match redisGet s (Key.blacklist token) with
  | Except.error _ => (Except.ok none, s)
  | Except.ok blacklisted =>
    if jsTruthy blacklisted then (Except.ok none, s)
    else
      match jwtVerify token envJWTSecret s.clock with
      | Except.error _ => (Except.ok none, s)
      | Except.ok decoded =>
        if decoded.userId == 0 then (Except.ok none, s)
        else
          match redisGet s (Key.session token) with
          | Except.error _ => (Except.ok none, s)
          | Except.ok sessionVal =>
            if !(jsTruthy sessionVal) then (Except.ok none, s)
            else
              match dbSelectWhere s
                  (fun u => (sessionVal.getD "").toInt? == some u.id) with
              | Except.error _ => (Except.ok none, s)
              | Except.ok rows => (Except.ok ((rows.head?).map User.toPublic), s)

/-- `verifyJWTToken(token)` from `src/auth/service.ts`, also wrapped whole
in `try { ... } catch { return null }`. -/
def verifyJWTToken (token : Token) (s : State) : Except Err (Option TokenPayload) × State :=
  match redisGet s (Key.blacklist token) with
  | Except.error _ => (Except.ok none, s)
  | Except.ok blacklisted =>
    if jsTruthy blacklisted then (Except.ok none, s)
    else
      match jwtVerify token envJWTSecret s.clock with
      | Except.error _ => (Except.ok none, s)
      | Except.ok decoded => (Except.ok (some decoded), s)

/-- Success body returned by `AuthController.forgotPassword`. -/
structure ApiResponse where
  success : Bool
  message : String
deriving DecidableEq, Repr

/-- `AuthController.forgotPassword` from `src/auth/controller.ts`: the call
to `generatePasswordResetOTP` sits in an inner `try \x7b ... \x7d catch` that
swallows every error, and the handler always answers the same
success-shaped body. -/
def forgotPassword (email : String) (s : State) : Except Err ApiResponse × State :=
  match generatePasswordResetOTP email s with
  | (Except.ok _, s1) =>
    (Except.ok ⟨true, "If the email exists, a reset code has been sent."⟩, s1)
  | (Except.error _, s1) =>
    (Except.ok ⟨true, "If the email exists, a reset code has been sent."⟩, s1)

/-- The token's own natural expiry instant. -/
def tokenExp : Token → Int
  | Token.signed p _ => p.exp
  | Token.malformed _ => 0

/-- A blacklist record for a token is live and truthy at the state's
current clock — the sense in which the service sees it as "present". -/
def blacklistLive (s : State) (t : Token) : Bool :=
  jsTruthy (redisLookup s.kv s.clock (Key.blacklist t))

/-- State invariant of claim C8: every physically stored blacklist record
for a well-formed token expires no later than the token itself. -/
def blacklistBounded (s : State) : Prop :=
  ∀ p sig e, kvFind s.kv (Key.blacklist (Token.signed p sig)) = some e → e.expiresAt ≤ p.exp

/-- Modelled from the spec: the login lookup — by email first, then by
username, first match wins.  Used to compare the code's two-query
sequence against the spec's description. -/
def specLoginLookup (s : State) (identifier : String) : Option User :=
  (s.dbUsers.find? (fun u => u.email == identifier)).orElse
    (fun _ => s.dbUsers.find? (fun u => u.username == identifier))

/-- A concrete registered user for witnesses and counterexamples. -/
def alice : User := ⟨1, "Alice", "alice", "alice@x.com", bcryptHash "pw", 0⟩

/-- A clean reachable state: one registered user, empty stores, both
collaborators reachable, clock at 0, no pending ticks. -/
def cleanState : State := ⟨[], [alice], true, true, 0, []⟩

/-- The token login issues from `cleanState` (both clock readings 0). -/
def aliceToken : Token := Token.signed ⟨1, 0, 3600⟩ envJWTSecret

/-- Like `cleanState` but one second elapses between the two `Date.now()`
readings of `loginUser`. -/
def tickState : State := ⟨[], [alice], true, true, 0, [0, 1]⟩

/-- A state whose key-value store is unreachable. -/
def kvDownState : State := ⟨[], [alice], false, true, 0, []⟩

/-- A state whose store and user table are both unreachable. -/
def allDownState : State := ⟨[], [alice], false, false, 0, []⟩

/-- A state in which `aliceToken` is blacklisted. -/
def blacklistedState : State :=
  ⟨[(Key.blacklist aliceToken, ⟨"1", 3600⟩),
    (Key.session aliceToken, ⟨"1", 3600⟩)], [alice], true, true, 0, []⟩

/-- A state in which an OTP has been issued for alice. -/
def otpState : State :=
  ⟨[(Key.otp "alice@x.com", ⟨"123456", 600⟩)], [alice], true, true, 0, []⟩

/-- A state holding a live session record for `aliceToken` whose stored
value is alice's id. -/
def sessionState : State :=
  ⟨[(Key.session aliceToken, ⟨"1", 3600⟩)], [alice], true, true, 0, []⟩

end AuthCore

namespace AuthCore

/-! ## Helper lemmas about the store, the clock and list lookups -/

theorem filter_take_one {α : Type} (l : List α) (p : α → Bool) :
    (l.filter p).take 1 = (l.find? p).toList := by
  induction l with
  | nil => rfl
  | cons x xs ih =>
    by_cases hx : p x
    · simp [List.filter_cons, List.find?_cons, hx]
    · simp [List.filter_cons, List.find?_cons, hx, ih]

theorem find?_filter_ne (l : List (Key × KVEntry)) (k k' : Key) (h : k' ≠ k) :
    (l.filter (fun q => !(q.1 == k))).find? (fun q => q.1 == k') =
      l.find? (fun q => q.1 == k') := by
  induction l with
  | nil => rfl
  | cons a as ih =>
    have hkk : (k == k') = false := by
      simp
      exact fun hh => h hh.symm
    by_cases hak : a.1 = k
    · simp [List.filter_cons, List.find?_cons, hak, hkk, ih]
    · by_cases hk' : a.1 = k'
      · simp [List.filter_cons, List.find?_cons, hak, hk', h]
      · simp [List.filter_cons, List.find?_cons, hak, hk', ih]

theorem kvFind_kvSet_self (kv : List (Key × KVEntry)) (k : Key) (e : KVEntry) :
    kvFind (kvSet kv k e) k = some e := by
  simp [kvFind, kvSet, List.find?_cons]

theorem kvFind_kvSet_ne (kv : List (Key × KVEntry)) (k k' : Key) (e : KVEntry)
    (h : k' ≠ k) : kvFind (kvSet kv k e) k' = kvFind kv k' := by
  have hne : (k == k') = false := by
    simp
    exact fun hh => h hh.symm
  simp [kvFind, kvSet, List.find?_cons, hne, find?_filter_ne _ _ _ h]

theorem kvFind_kvDel_self (kv : List (Key × KVEntry)) (k : Key) :
    kvFind (kvDel kv k) k = none := by
  induction kv with
  | nil => rfl
  | cons a as ih =>
    by_cases hak : a.1 = k
    · simp [kvFind, kvDel, List.filter_cons, List.find?_cons, hak, ih]
    · simp [kvFind, kvDel, List.filter_cons, List.find?_cons, hak, ih]

theorem kvFind_kvDel_ne (kv : List (Key × KVEntry)) (k k' : Key)
    (h : k' ≠ k) : kvFind (kvDel kv k) k' = kvFind kv k' := by
  simp [kvFind, kvDel, find?_filter_ne _ _ _ h]

theorem redisLookup_congr_kvFind (kv kv' : List (Key × KVEntry)) (now : Int) (k : Key)
    (h : kvFind kv k = kvFind kv' k) :
    redisLookup kv now k = redisLookup kv' now k := by
  unfold redisLookup
  rw [h]

theorem jsTruthy_redisLookup_mono (kv : List (Key × KVEntry)) (c c' : Int) (k : Key)
    (hcc : c ≤ c') (h : jsTruthy (redisLookup kv c k) = false) :
    jsTruthy (redisLookup kv c' k) = false := by
  cases hf : kvFind kv k with
  | none => simp [redisLookup, hf, jsTruthy]
  | some e =>
    simp only [redisLookup, hf] at h ⊢
    by_cases h1 : c < e.expiresAt
    · rw [if_pos h1] at h
      by_cases h2 : c' < e.expiresAt
      · rw [if_pos h2]
        exact h
      · rw [if_neg h2]
        simp [jsTruthy]
    · by_cases h2 : c' < e.expiresAt
      · omega
      · rw [if_neg h2]
        simp [jsTruthy]

theorem readClock_kv (s : State) : (readClock s).2.kv = s.kv := by
  cases h : s.ticks <;> simp [readClock, h]

theorem readClock_kvUp (s : State) : (readClock s).2.kvUp = s.kvUp := by
  cases h : s.ticks <;> simp [readClock, h]

theorem readClock_dbUp (s : State) : (readClock s).2.dbUp = s.dbUp := by
  cases h : s.ticks <;> simp [readClock, h]

theorem readClock_dbUsers (s : State) : (readClock s).2.dbUsers = s.dbUsers := by
  cases h : s.ticks <;> simp [readClock, h]

theorem readClock_clock (s : State) : (readClock s).2.clock = (readClock s).1 := by
  cases h : s.ticks <;> simp [readClock, h]

theorem readClock_le (s : State) : s.clock ≤ (readClock s).1 := by
  cases h : s.ticks with
  | nil => simp [readClock, h]
  | cons d rest => simp [readClock, h]

end AuthCore

namespace AuthCore

/-! ## Claim C1 -/

/-- C1: for every token whose blacklist record is present (live and
truthy) in a reachable store, both `getUserFromToken` and `verifyJWTToken`
reject with `null`, regardless of the session store's contents, the
token's signature validity or its remaining lifetime, because the
blacklist check runs first. -/
theorem blacklisted_token_never_authenticates
    (s : State) (t : Token)
    (hkv : s.kvUp = true)
    (hb : blacklistLive s t = true) :
    (getUserFromToken t s).1 = Except.ok none ∧
    (verifyJWTToken t s).1 = Except.ok none := by
  unfold blacklistLive at hb
  constructor
  · simp [getUserFromToken, redisGet, hkv, hb]
  · simp [verifyJWTToken, redisGet, hkv, hb]

/-- C1 witness: in `blacklistedState` the blacklist record for
`aliceToken` is present (and a session record for it coexists), and both
authenticators reject. -/
theorem blacklisted_token_never_authenticates_witness :
    blacklistedState.kvUp = true ∧ blacklistLive blacklistedState aliceToken = true ∧
    ((getUserFromToken aliceToken blacklistedState).1 = Except.ok none ∧
     (verifyJWTToken aliceToken blacklistedState).1 = Except.ok none) :=
  ⟨by decide, by decide,
   blacklisted_token_never_authenticates blacklistedState aliceToken (by decide) (by decide)⟩

/-! ## Claim C6 -/

/-- C6: for every state and every email with a matching user,
`generatePasswordResetOTP` deterministically stores and returns the
constant `"123456"` — the entire result, including the stored record, is
pinned by this equation and involves no randomness. -/
theorem generate_otp_constant
    (s : State) (email : String) (u : User)
    (hdb : s.dbUp = true) (hkv : s.kvUp = true)
    (hu : s.dbUsers.find? (fun x => x.email == email) = some u) :
    generatePasswordResetOTP email s =
      (Except.ok "123456",
       { s with kv := kvSet s.kv (Key.otp email) ⟨"123456", s.clock + OTP_EXPIRY⟩ }) := by
  simp [generatePasswordResetOTP, findUserByEmail, dbSelectWhere, redisSetEx,
        hdb, hkv, filter_take_one, hu]

/-- C6 witness: generating an OTP for alice in the clean state stores and
returns `"123456"`. -/
theorem generate_otp_constant_witness :
    cleanState.dbUp = true ∧ cleanState.kvUp = true ∧
    cleanState.dbUsers.find? (fun x => x.email == "alice@x.com") = some alice ∧
    generatePasswordResetOTP "alice@x.com" cleanState =
      (Except.ok "123456",
       { cleanState with
           kv := kvSet cleanState.kv (Key.otp "alice@x.com") ⟨"123456", cleanState.clock + OTP_EXPIRY⟩ }) :=
  ⟨by decide, by decide, by decide,
   generate_otp_constant cleanState "alice@x.com" alice (by decide) (by decide) (by decide)⟩

/-! ## Claim C9 -/

/-- C9 counterexample: with the key-value store unreachable
(`kvDownState.kvUp = false`), `logoutUser`, `getUserFromToken` and
`verifyJWTToken` do not propagate the infrastructure failure: the blanket
`catch` converts it into the authentication-failure results
`false` / `null` / `null`. -/
theorem infra_failure_swallowed_cex :
    kvDownState.kvUp = false ∧
    logoutUser aliceToken kvDownState = (Except.ok false, kvDownState) ∧
    (getUserFromToken aliceToken kvDownState).1 = Except.ok none ∧
    (verifyJWTToken aliceToken kvDownState).1 = Except.ok none := by
  decide

/-- C9 amended: the three operations wrapped whole in
`try/catch` — logout, session resolution and token verification — swallow
downstream failures and convert them to `false`/`null`; the operations
without a blanket catch — login and the two OTP operations — propagate
infrastructure failures upward. -/
theorem infra_failure_handling
    (s : State) (t : Token) (ident pw em otpc npw : String)
    (hkv : s.kvUp = false) (hdb : s.dbUp = false) :
    logoutUser t s = (Except.ok false, s) ∧
    getUserFromToken t s = (Except.ok none, s) ∧
    verifyJWTToken t s = (Except.ok none, s) ∧
    (loginUser ident pw s).1 = Except.error Err.infra ∧
    (generatePasswordResetOTP em s).1 = Except.error Err.infra ∧
    (verifyOTPAndResetPassword em otpc npw s).1 = Except.error Err.infra := by
  refine ⟨?_, ?_, ?_, ?_, ?_, ?_⟩
  · simp [logoutUser, redisGet, hkv]
  · simp [getUserFromToken, redisGet, hkv]
  · simp [verifyJWTToken, redisGet, hkv]
  · simp [loginUser, dbSelectWhere, hdb]
  · simp [generatePasswordResetOTP, findUserByEmail, dbSelectWhere, hdb]
  · simp [verifyOTPAndResetPassword, findUserByEmail, dbSelectWhere, hdb]

/-- C9 amended witness: in `allDownState` both collaborators are down; the
catch-all operations return `false`/`null` while login errors out. -/
theorem infra_failure_handling_witness :
    allDownState.kvUp = false ∧ allDownState.dbUp = false ∧
    (logoutUser aliceToken allDownState = (Except.ok false, allDownState) ∧
     getUserFromToken aliceToken allDownState = (Except.ok none, allDownState) ∧
     verifyJWTToken aliceToken allDownState = (Except.ok none, allDownState) ∧
     (loginUser "alice" "pw" allDownState).1 = Except.error Err.infra ∧
     (generatePasswordResetOTP "alice@x.com" allDownState).1 = Except.error Err.infra ∧
     (verifyOTPAndResetPassword "alice@x.com" "123456" "npw" allDownState).1 =
       Except.error Err.infra) :=
  ⟨by decide, by decide,
   infra_failure_handling allDownState aliceToken "alice" "pw" "alice@x.com" "123456" "npw"
     (by decide) (by decide)⟩

/-! ## Counterexamples for claims C2 and C7 -/

/-- C2 counterexample: `aliceToken` is obtained from a successful login in
`cleanState`, yet when 3601 seconds pass before logout is first called,
that first call returns `false`, not `true` (the token has expired, so the
catch converts the verification failure into `false`). -/
theorem logout_twice_after_login_cex :
    (loginUser "alice@x.com" "pw" cleanState).1 = Except.ok aliceToken ∧
    (logoutUser aliceToken (elapse 3601 (loginUser "alice@x.com" "pw" cleanState).2)).1 =
      Except.ok false := by
  decide

/-- C7 counterexample: logging in from `tickState`, where one second
elapses between the two `Date.now()` readings of `loginUser`, issues a
token with `iat = 0` and `exp = 3601`, so `expiresAt - issuedAt` is 3601,
not 3600 — the clock is read twice per login, not once. -/
theorem login_clock_read_twice_cex :
    (loginUser "alice@x.com" "pw" tickState).1 =
      Except.ok (Token.signed ⟨1, 0, 3601⟩ envJWTSecret) ∧
    (3601 : Int) - 0 ≠ 3600 := by
  decide

end AuthCore

namespace AuthCore

/-! ## The shape of `loginUser`, and claims C4 and C7 -/

theorem loginUser_eq_cases (s : State) (ident pw : String) (hdb : s.dbUp = true) :
    loginUser ident pw s =
      match specLoginLookup s ident with
      | none => (Except.error (Err.msg "Invalid credentials"), s)
      | some u =>
        if bcryptCompare pw u.password_hash then
          match redisSetEx (readClock (readClock s).2).2
              (Key.session (Token.signed
                ⟨u.id, (readClock s).1, (readClock (readClock s).2).1 + JWT_EXPIRES_IN⟩
                envJWTSecret))
              (toString u.id) JWT_EXPIRES_IN with
          | Except.error e => (Except.error e, (readClock (readClock s).2).2)
          | Except.ok s3 =>
            (Except.ok (Token.signed
              ⟨u.id, (readClock s).1, (readClock (readClock s).2).1 + JWT_EXPIRES_IN⟩
              envJWTSecret), s3)
        else (Except.error (Err.msg "Invalid credentials"), s) := by
  unfold loginUser specLoginLookup
  cases hfe : s.dbUsers.find? (fun u => u.email == ident) with
  | some u0 =>
    simp [dbSelectWhere, hdb, filter_take_one, hfe, Option.orElse, jwtSign]
  | none =>
    cases hfu : s.dbUsers.find? (fun u => u.username == ident) with
    | none => simp [dbSelectWhere, hdb, filter_take_one, hfe, hfu, Option.orElse]
    | some u0 => simp [dbSelectWhere, hdb, filter_take_one, hfe, hfu, Option.orElse, jwtSign]

/-- C4: login looks the identifier up by email first, then by username,
first match wins (`specLoginLookup`); every failure — unknown identifier
or wrong secret — produces the identical `"Invalid credentials"` error
with no state change whatsoever; on success the issued token's subject is
the matched user's id. -/
theorem login_lookup_order_uniform_failure
    (s : State) (ident pw : String) (hdb : s.dbUp = true) :
    (specLoginLookup s ident = none →
      loginUser ident pw s = (Except.error (Err.msg "Invalid credentials"), s)) ∧
    (∀ u, specLoginLookup s ident = some u →
      (bcryptCompare pw u.password_hash = false →
        loginUser ident pw s = (Except.error (Err.msg "Invalid credentials"), s)) ∧
      (bcryptCompare pw u.password_hash = true → s.kvUp = true →
        ∃ payload s', loginUser ident pw s =
            (Except.ok (Token.signed payload envJWTSecret), s') ∧
          payload.userId = u.id)) := by
  have hcase := loginUser_eq_cases s ident pw hdb
  constructor
  · intro hnone
    simp [hcase, hnone]
  · intro u hu
    constructor
    · intro hcmp
      simp [hcase, hu, hcmp]
    · intro hcmp hkv
      rw [hcase, hu]
      simp only [hcmp, if_true, redisSetEx, readClock_kvUp, hkv, ite_true]
      exact ⟨_, _, rfl, rfl⟩

/-- C4 witness: in the clean one-user state, an unknown identifier and a
wrong secret both yield the identical error and leave the state intact. -/
theorem login_lookup_order_uniform_failure_witness :
    cleanState.dbUp = true ∧
    specLoginLookup cleanState "bob" = none ∧
    loginUser "bob" "anything" cleanState =
      (Except.error (Err.msg "Invalid credentials"), cleanState) ∧
    specLoginLookup cleanState "alice" = some alice ∧
    bcryptCompare "wrong" alice.password_hash = false ∧
    loginUser "alice" "wrong" cleanState =
      (Except.error (Err.msg "Invalid credentials"), cleanState) :=
  ⟨by decide, by decide,
   (login_lookup_order_uniform_failure cleanState "bob" "anything" (by decide)).1 (by decide),
   by decide, by decide,
   ((login_lookup_order_uniform_failure cleanState "alice" "wrong" (by decide)).2 alice
     (by decide)).1 (by decide)⟩

/-- C7 amended: a successful login issues a token whose `iat` is the
operation's first clock reading and whose `exp` is the second clock
reading plus 3600 — two separate readings, not one.  Consequently
`exp - iat = 3600 + (second - first)`, which is at least 3600 and equals
3600 exactly when no time passes between the two readings. -/
theorem login_payload_two_reads
    (s : State) (ident pw : String) (u : User)
    (hdb : s.dbUp = true) (hkv : s.kvUp = true)
    (hu : specLoginLookup s ident = some u)
    (hcmp : bcryptCompare pw u.password_hash = true) :
    ∃ s', loginUser ident pw s =
        (Except.ok (Token.signed
          ⟨u.id, (readClock s).1, (readClock (readClock s).2).1 + JWT_EXPIRES_IN⟩
          envJWTSecret), s') ∧
      (readClock s).1 ≤ (readClock (readClock s).2).1 ∧
      ((readClock (readClock s).2).1 + JWT_EXPIRES_IN) - (readClock s).1 =
        JWT_EXPIRES_IN + ((readClock (readClock s).2).1 - (readClock s).1) := by
  have hmono : (readClock s).1 ≤ (readClock (readClock s).2).1 := by
    have hle := readClock_le (readClock s).2
    rw [readClock_clock] at hle
    exact hle
  have hcase := loginUser_eq_cases s ident pw hdb
  rw [hcase, hu]
  simp only [hcmp, if_true, redisSetEx, readClock_kvUp, hkv, ite_true]
  exact ⟨_, rfl, hmono, by ring⟩

/-- C7 amended witness: logging in from `cleanState` (no drift between the
readings) issues `iat = 0`, `exp = 3600`. -/
theorem login_payload_two_reads_witness :
    cleanState.dbUp = true ∧ cleanState.kvUp = true ∧
    specLoginLookup cleanState "alice@x.com" = some alice ∧
    bcryptCompare "pw" alice.password_hash = true ∧
    (∃ s', loginUser "alice@x.com" "pw" cleanState =
        (Except.ok (Token.signed
          ⟨alice.id, (readClock cleanState).1,
           (readClock (readClock cleanState).2).1 + JWT_EXPIRES_IN⟩ envJWTSecret), s') ∧
      (readClock cleanState).1 ≤ (readClock (readClock cleanState).2).1 ∧
      ((readClock (readClock cleanState).2).1 + JWT_EXPIRES_IN) - (readClock cleanState).1 =
        JWT_EXPIRES_IN + ((readClock (readClock cleanState).2).1 - (readClock cleanState).1)) :=
  ⟨by decide, by decide, by decide, by decide,
   login_payload_two_reads cleanState "alice@x.com" "pw" alice
     (by decide) (by decide) (by decide) (by decide)⟩

end AuthCore

namespace AuthCore

/-! ## Claims C5 and C10 -/

/-- C5: `forgotPassword` returns the identical success-shaped response for
every input email and every state (the inner catch swallows every internal
outcome); when no user matches the email, the state — in particular the
OTP key space — is left entirely unchanged, and every subsequent
`verifyOTPAndResetPassword` for that email fails. -/
theorem forgot_password_uniform_response
    (s : State) (email : String)
    (hnone : s.dbUsers.find? (fun u => u.email == email) = none) :
    (∀ s2 : State, ∀ em2 : String, (forgotPassword em2 s2).1 =
        Except.ok ⟨true, "If the email exists, a reset code has been sent."⟩) ∧
    forgotPassword email s =
      (Except.ok ⟨true, "If the email exists, a reset code has been sent."⟩, s) ∧
    (∀ otpc npw : String,
      ∃ e, (verifyOTPAndResetPassword email otpc npw s).1 = Except.error e) := by
  refine ⟨?_, ?_, ?_⟩
  · intro s2 em2
    rcases hg : generatePasswordResetOTP em2 s2 with ⟨r, s1⟩
    cases r <;> simp [forgotPassword, hg]
  · by_cases hdb : s.dbUp = true
    · have hg : generatePasswordResetOTP email s = (Except.error (Err.msg "User not found"), s) := by
        simp [generatePasswordResetOTP, findUserByEmail, dbSelectWhere, hdb,
              filter_take_one, hnone]
      simp [forgotPassword, hg]
    · have hdb' : s.dbUp = false := by simpa using hdb
      have hg : generatePasswordResetOTP email s = (Except.error Err.infra, s) := by
        simp [generatePasswordResetOTP, findUserByEmail, dbSelectWhere, hdb']
      simp [forgotPassword, hg]
  · intro otpc npw
    by_cases hdb : s.dbUp = true
    · exact ⟨Err.msg "User not found", by
        simp [verifyOTPAndResetPassword, findUserByEmail, dbSelectWhere, hdb,
              filter_take_one, hnone]⟩
    · have hdb' : s.dbUp = false := by simpa using hdb
      exact ⟨Err.infra, by
        simp [verifyOTPAndResetPassword, findUserByEmail, dbSelectWhere, hdb']⟩

/-- C5 witness: no user has email `bob@x.com` in the clean state; the
handler answers the uniform success body, changes nothing, and a
subsequent reset confirmation for that email fails. -/
theorem forgot_password_uniform_response_witness :
    cleanState.dbUsers.find? (fun u => u.email == "bob@x.com") = none ∧
    ((∀ s2 : State, ∀ em2 : String, (forgotPassword em2 s2).1 =
        Except.ok ⟨true, "If the email exists, a reset code has been sent."⟩) ∧
     forgotPassword "bob@x.com" cleanState =
       (Except.ok ⟨true, "If the email exists, a reset code has been sent."⟩, cleanState) ∧
     (∀ otpc npw : String,
       ∃ e, (verifyOTPAndResetPassword "bob@x.com" otpc npw cleanState).1 = Except.error e)) :=
  ⟨by decide, forgot_password_uniform_response cleanState "bob@x.com" (by decide)⟩

/-- C10: for a non-blacklisted, signature-valid, unexpired token with a
non-zero payload subject, `getUserFromToken` is fully determined by the
session record's stored value: absent session → reject; stored value with
no matching user row → reject; otherwise the public projection of the user
whose id equals the stored value — the payload's own `userId` is not used
for the lookup. -/
theorem resolve_session_uses_session_value
    (s : State) (p : TokenPayload) (sig : String)
    (hkv : s.kvUp = true) (hdb : s.dbUp = true)
    (hnb : blacklistLive s (Token.signed p sig) = false)
    (hsig : sig = envJWTSecret)
    (hexp : s.clock < p.exp)
    (huid : p.userId ≠ 0) :
    getUserFromToken (Token.signed p sig) s =
      (Except.ok
        (match redisLookup s.kv s.clock (Key.session (Token.signed p sig)) with
         | none => none
         | some v =>
           if v == "" then none
           else (s.dbUsers.find? (fun u => v.toInt? == some u.id)).map User.toPublic), s) := by
  subst hsig
  unfold blacklistLive at hnb
  cases hsv : redisLookup s.kv s.clock (Key.session (Token.signed p envJWTSecret)) with
  | none =>
    simp [getUserFromToken, redisGet, hkv, hnb, jwtVerify, hexp, huid, hsv, jsTruthy]
  | some v =>
    by_cases hv : v = ""
    · simp [getUserFromToken, redisGet, hkv, hnb, jwtVerify, hexp, huid, hsv, hv, jsTruthy]
    · simp only [getUserFromToken, redisGet, hkv, if_true, ite_true, hnb,
                 Bool.false_eq_true, jwtVerify, beq_self_eq_true, hexp, hsv]
      simp [huid, jsTruthy, hv, dbSelectWhere, hdb, filter_take_one]
      cases hfind : s.dbUsers.find? (fun u => v.toInt? == some u.id) with
      | none => simp [hfind]
      | some u0 => simp [hfind]

/-- C10 witness: in `sessionState` the session value `"1"` resolves to
alice's public record through the session value. -/
theorem resolve_session_uses_session_value_witness :
    sessionState.kvUp = true ∧ sessionState.dbUp = true ∧
    blacklistLive sessionState aliceToken = false ∧
    sessionState.clock < (3600 : Int) ∧ (1 : Int) ≠ 0 ∧
    getUserFromToken aliceToken sessionState =
      (Except.ok
        (match redisLookup sessionState.kv sessionState.clock (Key.session aliceToken) with
         | none => none
         | some v =>
           if v == "" then none
           else (sessionState.dbUsers.find?
                  (fun u => v.toInt? == some u.id)).map User.toPublic), sessionState) :=
  ⟨by decide, by decide, by decide, by decide, by decide,
   resolve_session_uses_session_value sessionState ⟨1, 0, 3600⟩ envJWTSecret
     (by decide) (by decide) (by decide) rfl (by decide) (by decide)⟩

end AuthCore

namespace AuthCore

/-! ## Claim C3 -/

theorem find?_email_map_update (l : List User) (E : String) (uid : Int) (h : String) :
    (l.map (fun x => if x.id == uid then { x with password_hash := h } else x)).find?
        (fun x => x.email == E) =
      (l.find? (fun x => x.email == E)).map
        (fun x => if x.id == uid then { x with password_hash := h } else x) := by
  rw [List.find?_map]
  have hp : ((fun x => x.email == E) ∘
      (fun x : User => if x.id == uid then { x with password_hash := h } else x)) =
      (fun x : User => x.email == E) := by
    funext x
    by_cases hid : x.id = uid <;> simp [Function.comp, hid]
  rw [hp]

theorem verifyOTP_no_record (s : State) (E otpc npw : String) (u : User)
    (hdb : s.dbUp = true) (hkv : s.kvUp = true)
    (hu : s.dbUsers.find? (fun x => x.email == E) = some u)
    (hno : jsTruthy (redisLookup s.kv s.clock (Key.otp E)) = false) :
    verifyOTPAndResetPassword E otpc npw s =
      (Except.error (Err.msg "Invalid or expired OTP"), s) := by
  simp [verifyOTPAndResetPassword, findUserByEmail, dbSelectWhere, hdb, hkv,
        filter_take_one, hu, redisGet, hno]

/-- C3: with a user on file for email `E` and a live OTP record holding
code `C`, `verifyOTPAndResetPassword(E, C, ·)` succeeds exactly once: the
first call rewrites the user's digest and deletes the OTP record, and any
second call with the same `C` fails with `"Invalid or expired OTP"` while
changing nothing — the digest written by the first call stays. -/
theorem otp_confirm_single_use
    (s : State) (E C npw : String) (u : User)
    (hdb : s.dbUp = true) (hkv : s.kvUp = true)
    (hu : s.dbUsers.find? (fun x => x.email == E) = some u)
    (hotp : redisLookup s.kv s.clock (Key.otp E) = some C)
    (hC : C ≠ "") :
    verifyOTPAndResetPassword E C npw s =
      (Except.ok true,
       { s with
           dbUsers := s.dbUsers.map
             (fun x => if x.id == u.id then { x with password_hash := bcryptHash npw } else x),
           kv := kvDel s.kv (Key.otp E) }) ∧
    (∀ npw2 : String,
      verifyOTPAndResetPassword E C npw2
          { s with
              dbUsers := s.dbUsers.map
                (fun x => if x.id == u.id then { x with password_hash := bcryptHash npw } else x),
              kv := kvDel s.kv (Key.otp E) } =
        (Except.error (Err.msg "Invalid or expired OTP"),
         { s with
             dbUsers := s.dbUsers.map
               (fun x => if x.id == u.id then { x with password_hash := bcryptHash npw } else x),
             kv := kvDel s.kv (Key.otp E) })) := by
  constructor
  · simp [verifyOTPAndResetPassword, findUserByEmail, dbSelectWhere, hdb, hkv,
          filter_take_one, hu, redisGet, hotp, jsTruthy, hC,
          dbUpdatePasswordHash, redisDel]
  · intro npw2
    refine verifyOTP_no_record _ E C npw2
      (if u.id == u.id then { u with password_hash := bcryptHash npw } else u) ?_ ?_ ?_ ?_
    · exact hdb
    · exact hkv
    · show (s.dbUsers.map
          (fun x => if x.id == u.id then { x with password_hash := bcryptHash npw } else x)).find?
            (fun x => x.email == E) = _
      rw [find?_email_map_update, hu, Option.map_some']
    · show jsTruthy (redisLookup (kvDel s.kv (Key.otp E)) s.clock (Key.otp E)) = false
      simp [redisLookup, kvFind_kvDel_self, jsTruthy]

/-- C3 witness: in `otpState` the issued code `"123456"` resets alice's
password once; replaying it fails and leaves the new digest in place. -/
theorem otp_confirm_single_use_witness :
    otpState.dbUp = true ∧ otpState.kvUp = true ∧
    otpState.dbUsers.find? (fun x => x.email == "alice@x.com") = some alice ∧
    redisLookup otpState.kv otpState.clock (Key.otp "alice@x.com") = some "123456" ∧
    ("123456" : String) ≠ "" ∧
    (verifyOTPAndResetPassword "alice@x.com" "123456" "npw" otpState =
      (Except.ok true,
       { otpState with
           dbUsers := otpState.dbUsers.map
             (fun x => if x.id == alice.id then { x with password_hash := bcryptHash "npw" } else x),
           kv := kvDel otpState.kv (Key.otp "alice@x.com") }) ∧
     (∀ npw2 : String,
       verifyOTPAndResetPassword "alice@x.com" "123456" npw2
           { otpState with
               dbUsers := otpState.dbUsers.map
                 (fun x => if x.id == alice.id then { x with password_hash := bcryptHash "npw" } else x),
               kv := kvDel otpState.kv (Key.otp "alice@x.com") } =
         (Except.error (Err.msg "Invalid or expired OTP"),
          { otpState with
              dbUsers := otpState.dbUsers.map
                (fun x => if x.id == alice.id then { x with password_hash := bcryptHash "npw" } else x),
              kv := kvDel otpState.kv (Key.otp "alice@x.com") }))) :=
  ⟨by decide, by decide, by decide, by decide, by decide,
   otp_confirm_single_use otpState "alice@x.com" "123456" "npw" alice
     (by decide) (by decide) (by decide) (by decide) (by decide)⟩

end AuthCore

namespace AuthCore

/-! ## Claim C2 -/

theorem loginUser_dbDown (ident pw : String) (s : State) (hdb : s.dbUp = false) :
    loginUser ident pw s = (Except.error Err.infra, s) := by
  simp [loginUser, dbSelectWhere, hdb]

theorem loginUser_ok_token_shape (ident pw : String) (s s' : State) (t : Token)
    (h : loginUser ident pw s = (Except.ok t, s')) :
    ∃ p, t = Token.signed p envJWTSecret := by
  by_cases hdb : s.dbUp = true
  · rw [loginUser_eq_cases s ident pw hdb] at h
    split at h
    · simp at h
    · split at h
      · split at h
        · simp at h
        · simp only [Prod.mk.injEq, Except.ok.injEq] at h
          exact ⟨_, h.1.symm⟩
      · simp at h
  · have hdb' : s.dbUp = false := by simpa using hdb
    rw [loginUser_dbDown ident pw s hdb'] at h
    simp at h

theorem logout_fresh_spec (s : State) (p : TokenPayload)
    (hkv : s.kvUp = true)
    (hfresh : jsTruthy (redisLookup s.kv s.clock
      (Key.blacklist (Token.signed p envJWTSecret))) = false)
    (hlive : s.clock < p.exp) :
    (logoutUser (Token.signed p envJWTSecret) s).1 = Except.ok true ∧
    ((logoutUser (Token.signed p envJWTSecret) s).2).kvUp = true ∧
    ((logoutUser (Token.signed p envJWTSecret) s).2).clock = (readClock s).1 ∧
    (∀ c : Int, (readClock s).1 ≤ c →
      jsTruthy (redisLookup ((logoutUser (Token.signed p envJWTSecret) s).2).kv c
        (Key.blacklist (Token.signed p envJWTSecret))) = true ∨ p.exp ≤ c) := by
  have hsne : Key.blacklist (Token.signed p envJWTSecret) ≠
      Key.session (Token.signed p envJWTSecret) := by simp
  simp only [logoutUser, redisGet, hkv, ite_true, hfresh, Bool.false_eq_true, if_false,
             jwtVerify, beq_self_eq_true, hlive, ite_true]
  by_cases hpos : p.exp - (readClock s).1 > 0
  · rw [if_pos hpos]
    simp only [redisSetEx, readClock_kvUp, hkv, ite_true, redisDel]
    refine ⟨by simp, by simp [readClock_kvUp, hkv], ?_, ?_⟩
    · exact readClock_clock s
    · intro c hc
      have hfind : kvFind
          (kvDel (kvSet (readClock s).2.kv (Key.blacklist (Token.signed p envJWTSecret))
            ⟨"1", (readClock s).2.clock + (p.exp - (readClock s).1)⟩)
            (Key.session (Token.signed p envJWTSecret)))
          (Key.blacklist (Token.signed p envJWTSecret)) =
          some ⟨"1", (readClock s).2.clock + (p.exp - (readClock s).1)⟩ := by
        rw [kvFind_kvDel_ne _ _ _ hsne, kvFind_kvSet_self]
      have hexp : (readClock s).2.clock + (p.exp - (readClock s).1) = p.exp := by
        rw [readClock_clock]
        ring
      rw [hexp] at hfind
      by_cases hce : c < p.exp
      · left
        simp [redisLookup, hexp, hfind, hce, jsTruthy]
      · right
        omega
  · rw [if_neg hpos]
    simp only [redisDel, readClock_kvUp, hkv, ite_true]
    refine ⟨by simp, by simp [readClock_kvUp, hkv], ?_, ?_⟩
    · exact readClock_clock s
    · intro c hc
      right
      omega

/-- C2 amended: for a token obtained from a successful login, if the first
logout happens while the token is unexpired and not already blacklisted
(which is the case in every trace that does not re-issue an identical
token), that call returns `true`; every later logout of the same token
returns `false` and changes nothing; and session resolution rejects the
token at every instant after the first call. -/
theorem logout_twice_fresh_unexpired
    (s0 s1 : State) (ident pw : String) (t : Token) (d1 : Nat)
    (hL : loginUser ident pw s0 = (Except.ok t, s1))
    (hkv : s1.kvUp = true)
    (hfresh : blacklistLive (elapse d1 s1) t = false)
    (hlive : (elapse d1 s1).clock < tokenExp t) :
    (logoutUser t (elapse d1 s1)).1 = Except.ok true ∧
    (∀ d2 : Nat, logoutUser t (elapse d2 ((logoutUser t (elapse d1 s1)).2)) =
        (Except.ok false, elapse d2 ((logoutUser t (elapse d1 s1)).2))) ∧
    (∀ d3 : Nat, (getUserFromToken t (elapse d3 ((logoutUser t (elapse d1 s1)).2))).1 =
        Except.ok none) := by
  obtain ⟨p, rfl⟩ := loginUser_ok_token_shape ident pw s0 s1 t hL
  unfold blacklistLive at hfresh
  have hkv2 : (elapse d1 s1).kvUp = true := hkv
  have hlive2 : (elapse d1 s1).clock < p.exp := hlive
  obtain ⟨hA, hB, hC, hD⟩ := logout_fresh_spec (elapse d1 s1) p hkv2 hfresh hlive2
  set s3 := (logoutUser (Token.signed p envJWTSecret) (elapse d1 s1)).2 with hs3
  refine ⟨hA, ?_, ?_⟩
  · intro d2
    have hcge : (readClock (elapse d1 s1)).1 ≤ s3.clock + (d2 : Int) := by
      rw [hC]
      omega
    have hd := hD (s3.clock + (d2 : Int)) hcge
    by_cases hbt : jsTruthy (redisLookup s3.kv (s3.clock + (d2 : Int))
        (Key.blacklist (Token.signed p envJWTSecret))) = true
    · simp [logoutUser, redisGet, elapse, hB, hbt]
    · have hbf : jsTruthy (redisLookup s3.kv (s3.clock + (d2 : Int))
          (Key.blacklist (Token.signed p envJWTSecret))) = false := by
        simpa using hbt
      have hexpc : p.exp ≤ s3.clock + (d2 : Int) := by
        rcases hd with h | h
        · exact absurd h hbt
        · exact h
      have hnlt : ¬(s3.clock + (d2 : Int) < p.exp) := by omega
      simp [logoutUser, redisGet, elapse, hB, hbf, jwtVerify, hnlt]
  · intro d3
    have hcge : (readClock (elapse d1 s1)).1 ≤ s3.clock + (d3 : Int) := by
      rw [hC]
      omega
    have hd := hD (s3.clock + (d3 : Int)) hcge
    by_cases hbt : jsTruthy (redisLookup s3.kv (s3.clock + (d3 : Int))
        (Key.blacklist (Token.signed p envJWTSecret))) = true
    · simp [getUserFromToken, redisGet, elapse, hB, hbt]
    · have hbf : jsTruthy (redisLookup s3.kv (s3.clock + (d3 : Int))
          (Key.blacklist (Token.signed p envJWTSecret))) = false := by
        simpa using hbt
      have hexpc : p.exp ≤ s3.clock + (d3 : Int) := by
        rcases hd with h | h
        · exact absurd h hbt
        · exact h
      have hnlt : ¬(s3.clock + (d3 : Int) < p.exp) := by omega
      simp [getUserFromToken, redisGet, elapse, hB, hbf, jwtVerify, hnlt]

end AuthCore

namespace AuthCore

/-- C2 amended witness: alice logs in from the clean state (yielding
`aliceToken` and post-state `sessionState`); an immediate logout returns
`true`, and every later repeat returns `false` without changing state
while session resolution rejects. -/
theorem logout_twice_fresh_unexpired_witness :
    loginUser "alice@x.com" "pw" cleanState = (Except.ok aliceToken, sessionState) ∧
    sessionState.kvUp = true ∧
    blacklistLive (elapse 0 sessionState) aliceToken = false ∧
    (elapse 0 sessionState).clock < tokenExp aliceToken ∧
    ((logoutUser aliceToken (elapse 0 sessionState)).1 = Except.ok true ∧
     (∀ d2 : Nat, logoutUser aliceToken
         (elapse d2 ((logoutUser aliceToken (elapse 0 sessionState)).2)) =
       (Except.ok false, elapse d2 ((logoutUser aliceToken (elapse 0 sessionState)).2))) ∧
     (∀ d3 : Nat, (getUserFromToken aliceToken
         (elapse d3 ((logoutUser aliceToken (elapse 0 sessionState)).2))).1 =
       Except.ok none)) :=
  ⟨by decide, by decide, by decide, by decide,
   logout_twice_fresh_unexpired cleanState sessionState "alice@x.com" "pw" aliceToken 0
     (by decide) (by decide) (by decide) (by decide)⟩

end AuthCore

namespace AuthCore

/-! ## Claim C8: helper lemmas -/

theorem redisSetEx_ok_kv (s s' : State) (k : Key) (v : String) (ttl : Int)
    (h : redisSetEx s k v ttl = Except.ok s') :
    s'.kv = kvSet s.kv k ⟨v, s.clock + ttl⟩ := by
  unfold redisSetEx at h
  split at h
  · simp only [Except.ok.injEq] at h
    rw [← h]
  · simp at h

theorem redisDel_ok_kv (s s' : State) (k : Key)
    (h : redisDel s k = Except.ok s') : s'.kv = kvDel s.kv k := by
  unfold redisDel at h
  split at h
  · simp only [Except.ok.injEq] at h
    rw [← h]
  · simp at h

theorem dbUpdatePasswordHash_ok_kv (s s' : State) (uid : Int) (dg : String)
    (h : dbUpdatePasswordHash s uid dg = Except.ok s') : s'.kv = s.kv := by
  unfold dbUpdatePasswordHash at h
  split at h
  · simp only [Except.ok.injEq] at h
    rw [← h]
  · simp at h

theorem jwtVerify_ok_inv (t : Token) (secret : String) (now : Int) (p : TokenPayload)
    (h : jwtVerify t secret now = Except.ok p) :
    t = Token.signed p secret ∧ now < p.exp := by
  cases t with
  | malformed r => simp [jwtVerify] at h
  | signed q sig =>
    dsimp only [jwtVerify] at h
    by_cases hs : (sig == secret) = true
    · rw [if_pos hs] at h
      by_cases he : now < q.exp
      · rw [if_pos he] at h
        simp only [Except.ok.injEq] at h
        subst h
        have hss : sig = secret := by simpa using hs
        subst hss
        exact ⟨rfl, he⟩
      · rw [if_neg he] at h
        simp at h
    · rw [if_neg hs] at h
      simp at h

theorem getUserFromToken_state (t : Token) (s : State) : (getUserFromToken t s).2 = s := by
  unfold getUserFromToken
  repeat' split
  all_goals rfl

theorem verifyJWTToken_state (t : Token) (s : State) : (verifyJWTToken t s).2 = s := by
  unfold verifyJWTToken
  repeat' split
  all_goals rfl

theorem findUserByEmail_state (em : String) (s : State) : (findUserByEmail em s).2 = s := by
  unfold findUserByEmail
  split
  · rfl
  · rfl

theorem loginUser_preserves_blacklist (ident pw : String) (s : State) (t' : Token) :
    kvFind ((loginUser ident pw s).2).kv (Key.blacklist t') = kvFind s.kv (Key.blacklist t') := by
  unfold loginUser
  split
  · rfl
  · split
    · rfl
    · split
      · rfl
      · split
        · dsimp only
          split
          · rw [readClock_kv, readClock_kv]
          · rename_i s3 heq
            have hkv3 := redisSetEx_ok_kv _ _ _ _ _ heq
            rw [hkv3, kvFind_kvSet_ne _ _ _ _ (by simp), readClock_kv, readClock_kv]
        · rfl

theorem generatePasswordResetOTP_preserves_blacklist (em : String) (s : State) (t' : Token) :
    kvFind ((generatePasswordResetOTP em s).2).kv (Key.blacklist t') =
      kvFind s.kv (Key.blacklist t') := by
  unfold generatePasswordResetOTP
  split
  · rename_i e s1 heq
    have hs1 : s1 = s := by
      have hst := findUserByEmail_state em s
      rw [heq] at hst
      simpa using hst
    rw [hs1]
  · rename_i s1 heq
    have hs1 : s1 = s := by
      have hst := findUserByEmail_state em s
      rw [heq] at hst
      simpa using hst
    rw [hs1]
  · rename_i u s1 heq
    have hs1 : s1 = s := by
      have hst := findUserByEmail_state em s
      rw [heq] at hst
      simpa using hst
    subst hs1
    dsimp only
    split
    · rfl
    · rename_i s2 heq2
      have hkv2 := redisSetEx_ok_kv _ _ _ _ _ heq2
      rw [hkv2, kvFind_kvSet_ne _ _ _ _ (by simp)]

theorem forgotPassword_state (em : String) (s : State) :
    (forgotPassword em s).2 = (generatePasswordResetOTP em s).2 := by
  unfold forgotPassword
  rcases h : generatePasswordResetOTP em s with ⟨r, s1⟩
  cases r <;> simp

theorem verifyOTP_preserves_blacklist (em otpc npw : String) (s : State) (t' : Token) :
    kvFind ((verifyOTPAndResetPassword em otpc npw s).2).kv (Key.blacklist t') =
      kvFind s.kv (Key.blacklist t') := by
  unfold verifyOTPAndResetPassword
  split
  · rename_i e s1 heq
    have hs1 : s1 = s := by
      have hst := findUserByEmail_state em s
      rw [heq] at hst
      simpa using hst
    rw [hs1]
  · rename_i s1 heq
    have hs1 : s1 = s := by
      have hst := findUserByEmail_state em s
      rw [heq] at hst
      simpa using hst
    rw [hs1]
  · rename_i u s1 heq
    have hs1 : s1 = s := by
      have hst := findUserByEmail_state em s
      rw [heq] at hst
      simpa using hst
    subst hs1
    split
    · rfl
    · split
      · rfl
      · split
        · rfl
        · split
          · rfl
          · rename_i s2 heq2
            have hkv2 := dbUpdatePasswordHash_ok_kv _ _ _ _ heq2
            split
            · rw [hkv2]
            · rename_i s3 heq3
              have hkv3 := redisDel_ok_kv _ _ _ heq3
              rw [hkv3, kvFind_kvDel_ne _ _ _ (by simp), hkv2]

end AuthCore

namespace AuthCore

/-! ## Claim C8: discipline of blacklist writes and the TTL invariant -/

theorem logout_blacklist_discipline (s : State) (t t' : Token) :
    kvFind ((logoutUser t s).2).kv (Key.blacklist t') = kvFind s.kv (Key.blacklist t') ∨
    (t' = t ∧ ∃ p, t = Token.signed p envJWTSecret ∧ (readClock s).1 < p.exp ∧
      kvFind ((logoutUser t s).2).kv (Key.blacklist t') = some ⟨"1", p.exp⟩) := by
  unfold logoutUser
  split
  · left
    rfl
  · split
    · left
      rfl
    · split
      · left
        rfl
      · rename_i decoded heq
        obtain ⟨hts, hlt⟩ := jwtVerify_ok_inv _ _ _ _ heq
        dsimp only
        split
        · rename_i hpos
          have hent : (readClock s).2.clock + (decoded.exp - (readClock s).1) = decoded.exp := by
            rw [readClock_clock]
            ring
          split
          · left
            rw [readClock_kv]
          · rename_i s2 heq2
            have hkv2 := redisSetEx_ok_kv _ _ _ _ _ heq2
            split
            · by_cases htt : t' = t
              · right
                subst htt
                refine ⟨rfl, decoded, hts, by omega, ?_⟩
                rw [hkv2, kvFind_kvSet_self, hent]
              · left
                rw [hkv2, kvFind_kvSet_ne _ _ _ _ (by simp [htt]), readClock_kv]
            · rename_i s3 heq3
              have hkv3 := redisDel_ok_kv _ _ _ heq3
              by_cases htt : t' = t
              · right
                subst htt
                refine ⟨rfl, decoded, hts, by omega, ?_⟩
                rw [hkv3, kvFind_kvDel_ne _ _ _ (by simp), hkv2, kvFind_kvSet_self, hent]
              · left
                rw [hkv3, kvFind_kvDel_ne _ _ _ (by simp), hkv2,
                    kvFind_kvSet_ne _ _ _ _ (by simp [htt]), readClock_kv]
        · split
          · left
            rw [readClock_kv]
          · rename_i s2 heq2
            have hkv2 := redisDel_ok_kv _ _ _ heq2
            left
            rw [hkv2, kvFind_kvDel_ne _ _ _ (by simp), readClock_kv]

/-- C8: blacklist records are created only by logout, only while the token
is still valid (`now < exp`), and the created record expires exactly at
the token's own `exp` (its TTL is the remaining validity `exp - now`); no
operation ever deletes or shrinks another blacklist record; consequently
the invariant that no blacklist record outlives its token's natural
expiry is preserved by every operation of the service. -/
theorem blacklist_ttl_invariant
    (s : State) (t t' : Token) (ident pw em otpc npw : String)
    (hbound : blacklistBounded s) :
    (kvFind ((logoutUser t s).2).kv (Key.blacklist t') = kvFind s.kv (Key.blacklist t') ∨
     (t' = t ∧ ∃ p, t = Token.signed p envJWTSecret ∧ (readClock s).1 < p.exp ∧
       kvFind ((logoutUser t s).2).kv (Key.blacklist t') = some ⟨"1", p.exp⟩)) ∧
    kvFind ((loginUser ident pw s).2).kv (Key.blacklist t') = kvFind s.kv (Key.blacklist t') ∧
    kvFind ((getUserFromToken t s).2).kv (Key.blacklist t') = kvFind s.kv (Key.blacklist t') ∧
    kvFind ((verifyJWTToken t s).2).kv (Key.blacklist t') = kvFind s.kv (Key.blacklist t') ∧
    kvFind ((forgotPassword em s).2).kv (Key.blacklist t') = kvFind s.kv (Key.blacklist t') ∧
    kvFind ((generatePasswordResetOTP em s).2).kv (Key.blacklist t') =
      kvFind s.kv (Key.blacklist t') ∧
    kvFind ((verifyOTPAndResetPassword em otpc npw s).2).kv (Key.blacklist t') =
      kvFind s.kv (Key.blacklist t') ∧
    blacklistBounded ((logoutUser t s).2) ∧
    blacklistBounded ((loginUser ident pw s).2) ∧
    blacklistBounded ((getUserFromToken t s).2) ∧
    blacklistBounded ((verifyJWTToken t s).2) ∧
    blacklistBounded ((forgotPassword em s).2) ∧
    blacklistBounded ((generatePasswordResetOTP em s).2) ∧
    blacklistBounded ((verifyOTPAndResetPassword em otpc npw s).2) := by
  refine ⟨logout_blacklist_discipline s t t',
          loginUser_preserves_blacklist ident pw s t',
          by rw [getUserFromToken_state], by rw [verifyJWTToken_state],
          by rw [forgotPassword_state]; exact generatePasswordResetOTP_preserves_blacklist em s t',
          generatePasswordResetOTP_preserves_blacklist em s t',
          verifyOTP_preserves_blacklist em otpc npw s t',
          ?_, ?_, ?_, ?_, ?_, ?_, ?_⟩
  · intro p sig e hfind
    rcases logout_blacklist_discipline s t (Token.signed p sig) with h | ⟨heqt, p0, hts, hlt, hfind'⟩
    · rw [h] at hfind
      exact hbound p sig e hfind
    · have hpp : Token.signed p sig = Token.signed p0 envJWTSecret := heqt.trans hts
      simp only [Token.signed.injEq] at hpp
      rw [hfind'] at hfind
      simp only [Option.some.injEq] at hfind
      rw [← hfind]
      simp [hpp.1]
  · intro p sig e hfind
    rw [loginUser_preserves_blacklist] at hfind
    exact hbound p sig e hfind
  · intro p sig e hfind
    rw [getUserFromToken_state] at hfind
    exact hbound p sig e hfind
  · intro p sig e hfind
    rw [verifyJWTToken_state] at hfind
    exact hbound p sig e hfind
  · intro p sig e hfind
    rw [forgotPassword_state, generatePasswordResetOTP_preserves_blacklist] at hfind
    exact hbound p sig e hfind
  · intro p sig e hfind
    rw [generatePasswordResetOTP_preserves_blacklist] at hfind
    exact hbound p sig e hfind
  · intro p sig e hfind
    rw [verifyOTP_preserves_blacklist] at hfind
    exact hbound p sig e hfind

/-- C8 witness: `sessionState` satisfies the invariant (its only record is
a session record), and it is preserved across a logout and a login. -/
theorem blacklist_ttl_invariant_witness :
    blacklistBounded sessionState ∧
    blacklistBounded ((logoutUser aliceToken sessionState).2) ∧
    blacklistBounded ((loginUser "alice" "pw" sessionState).2) := by
  have hb : blacklistBounded sessionState := by
    intro p sig e h
    have hne : (Key.session aliceToken == Key.blacklist (Token.signed p sig)) = false := by
      simp
    simp [sessionState, kvFind, List.find?, hne] at h
  obtain ⟨hd, hp1, hp2, hp3, hp4, hp5, hp6, hb1, hb2, hb3, hb4, hb5, hb6, hb7⟩ :=
    blacklist_ttl_invariant sessionState aliceToken aliceToken "alice" "pw"
      "alice@x.com" "123456" "npw" hb
  exact ⟨hb, hb1, hb2⟩

end AuthCore
